import Mathlib

/-!
Verification development for the AttendEase attendance-tracking backend.

The definitions below are a shallow embedding of the Python source:
  - `models.py`        : the relational data model (courses, sessions, students,
                         enrollments, attendance records) becomes Lean structures,
                         and the database becomes a `DB` record of lists of rows.
  - `routes/attendance.py` : `checkin`, `get_session_attendance` (lecturer branch),
                         `get_student_attendance`, `get_course_attendance`,
                         `mark_attendance` become pure functions over `DB`.
  - `routes/courses.py` : `enroll_student` likewise.

SQLAlchemy `filter_by(...).first()` becomes `List.find?`, `.all()` becomes
`List.filter`, and the join of `Student` with active `Enrollment` becomes a
filter of the student table by an `any` over the enrollment table.  Time-of-day
values (`datetime.now().time()`, `Session.start_time`) are modelled as `Nat`
(e.g. minutes since midnight), dates and timestamps as `Nat` as well; only
their order matters to the code.  Attendance rates, computed with Python `/`
and `* 100`, are modelled as exact rationals (`Rat`); the `round(x, 2)`
applied at JSON-serialization time is a rendering detail outside the model.
Handlers that return an error response before any write are modelled as
returning the unchanged `DB` together with an outcome tag.
-/

namespace AttendEase

/-- `AttendanceStatus` enum from `models.py`. -/
inductive AttendanceStatus
  | PRESENT
  | ABSENT
  | LATE
  | EXCUSED
deriving DecidableEq, Repr

/-- `CourseStatus` enum from `models.py`. -/
inductive CourseStatus
  | ACTIVE
  | INACTIVE
  | COMPLETED
deriving DecidableEq, Repr

/-- A row of the `courses` table (the fields the attendance logic reads). -/
structure Course where
  id : Nat
  lecturer_id : Nat
  status : CourseStatus
deriving DecidableEq, Repr

/-- A row of the `sessions` table.  `session_date`, `start_time` and
`end_time` are Nat-coded date and times-of-day. -/
structure Session where
  id : Nat
  course_id : Nat
  session_date : Nat
  start_time : Nat
  end_time : Nat
  attendance_open : Bool
deriving DecidableEq, Repr

/-- A row of the `enrollments` table. -/
structure Enrollment where
  id : Nat
  student_id : Nat
  course_id : Nat
  enrolled_at : Nat
  is_active : Bool
deriving DecidableEq, Repr

/-- A row of the `attendance_records` table. -/
structure AttendanceRecord where
  id : Nat
  session_id : Nat
  student_id : Nat
  status : AttendanceStatus
  marked_at : Nat
  marked_by : Option Nat
  notes : Option String
deriving DecidableEq, Repr

/-- The database: one list of rows per table.  Students are represented by
their primary key only (the attendance logic reads no other student field). -/
structure DB where
  courses : List Course
  sessions : List Session
  students : List Nat
  enrollments : List Enrollment
  records : List AttendanceRecord
deriving Repr

/-- `Course.query.get(course_id)`. -/
def findCourse (db : DB) (courseId : Nat) : Option Course :=
  db.courses.find? (fun c => c.id == courseId)

/-- `Session.query.get(session_id)`. -/
def findSession (db : DB) (sessionId : Nat) : Option Session :=
  db.sessions.find? (fun s => s.id == sessionId)

/-- `Enrollment.query.filter_by(student_id=…, course_id=…, is_active=True).first()`. -/
def activeEnrollment (db : DB) (studentId courseId : Nat) : Option Enrollment :=
  db.enrollments.find?
    (fun e => e.student_id == studentId && e.course_id == courseId && e.is_active)

/-- `Enrollment.query.filter_by(student_id=…, course_id=…).first()` (no
`is_active` filter — used by `enroll_student`). -/
def anyEnrollment (db : DB) (studentId courseId : Nat) : Option Enrollment :=
  db.enrollments.find? (fun e => e.student_id == studentId && e.course_id == courseId)

/-- `AttendanceRecord.query.filter_by(session_id=…, student_id=…).first()`. -/
def findRecord (db : DB) (sessionId studentId : Nat) : Option AttendanceRecord :=
  db.records.find? (fun r => r.session_id == sessionId && r.student_id == studentId)

/-- `Student.query.join(Enrollment).filter(course_id=…, is_active=True).all()`:
the students holding an active enrollment in the course. -/
def enrolledStudents (db : DB) (courseId : Nat) : List Nat :=
  db.students.filter (fun st =>
    db.enrollments.any
      (fun e => e.student_id == st && e.course_id == courseId && e.is_active))

/-- Autoincrement primary key for a new row. -/
def freshId (l : List Nat) : Nat := l.foldr max 0 + 1

/-- Fresh primary key for `attendance_records`. -/
def freshRecordId (db : DB) : Nat := freshId (db.records.map (fun r => r.id))

/-- Fresh primary key for `enrollments`. -/
def freshEnrollmentId (db : DB) : Nat := freshId (db.enrollments.map (fun e => e.id))

/-- Update the first element satisfying `p` (SQLAlchemy mutates the single row
object returned by `.first()`), leaving the rest of the list unchanged. -/
def updateFirst {α : Type} (p : α → Bool) (f : α → α) : List α → List α
  | [] => []
  | x :: xs => if p x then f x :: xs else x :: updateFirst p f xs

/-- `r.status in [AttendanceStatus.PRESENT, AttendanceStatus.LATE]`. -/
def isPresentOrLate (st : AttendanceStatus) : Bool :=
  st == AttendanceStatus.PRESENT || st == AttendanceStatus.LATE

/-- Outcome of the student self-check-in handler (`/checkin`). -/
inductive CheckinOutcome
  | SessionNotFound
  | SessionClosed
  | NotEnrolled
  | DuplicateCheckIn
  | CheckedIn (status : AttendanceStatus)
deriving DecidableEq, Repr

/-- `checkin` from `routes/attendance.py`: the student self-check-in path.
`nowTime` is `datetime.now().time()` (time-of-day only, no date), `nowStamp`
the wall-clock timestamp stored in `marked_at`.  The guards run in source
order: `attendance_open`, then active enrollment, then duplicate record;
each failure returns before any row is inserted. -/
def checkin (db : DB) (userId studentId sessionId : Nat) (nowTime nowStamp : Nat) :
    DB × CheckinOutcome :=
  match findSession db sessionId with
  | none => (db, CheckinOutcome.SessionNotFound)
  | some s =>
    if !s.attendance_open then (db, CheckinOutcome.SessionClosed)
    else
      match activeEnrollment db studentId s.course_id with
      | none => (db, CheckinOutcome.NotEnrolled)
      | some _ =>
        match findRecord db sessionId studentId with
        | some _ => (db, CheckinOutcome.DuplicateCheckIn)
        | none =>
          let status :=
            if s.start_time < nowTime then AttendanceStatus.LATE
            else AttendanceStatus.PRESENT
          let newRecord : AttendanceRecord :=
            { id := freshRecordId db
              session_id := sessionId
              student_id := studentId
              status := status
              marked_at := nowStamp
              marked_by := some userId
              notes := none }
          ({ db with records := db.records ++ [newRecord] },
            CheckinOutcome.CheckedIn status)

/-- One entry of the lecturer session view's `attendance_list`: either the
student's explicit record, or the synthesized `{'status': 'ABSENT',
'marked_at': None}` dictionary. -/
structure SessionCell where
  student_id : Nat
  status : AttendanceStatus
  marked_at : Option Nat
deriving DecidableEq, Repr

/-- The lecturer branch of `get_session_attendance`'s response. `total_absent`
is `len(enrolled_students) - len(attendance_records)`, a Python int that can
go negative, hence `Int`. -/
structure SessionView where
  attendance_list : List SessionCell
  total_enrolled : Nat
  total_present : Nat
  total_absent : Int
deriving Repr

/-- `get_session_attendance` (lecturer branch) from `routes/attendance.py`:
fold the active roster against this session's records, synthesizing ABSENT
cells, and emit the three counts exactly as the source computes them. -/
def get_session_attendance (db : DB) (s : Session) : SessionView :=
  let attendance_records := db.records.filter (fun r => r.session_id == s.id)
  let enrolled_students := enrolledStudents db s.course_id
  { attendance_list :=
      enrolled_students.map (fun st =>
        match attendance_records.find? (fun r => r.student_id == st) with
        | some r => { student_id := st, status := r.status, marked_at := some r.marked_at }
        | none => { student_id := st, status := AttendanceStatus.ABSENT, marked_at := none })
    total_enrolled := enrolled_students.length
    total_present := (attendance_records.filter (fun r => isPresentOrLate r.status)).length
    total_absent := (enrolled_students.length : Int) - (attendance_records.length : Int) }

/-- A record passes a join with `Session` plus a filter `p` on the joined
session (used by `get_student_attendance`'s optional query filters). -/
def sessionPasses (db : DB) (p : Session → Bool) (r : AttendanceRecord) : Bool :=
  match findSession db r.session_id with
  | some s => p s
  | none => false

/-- The query pipeline of `get_student_attendance`: start from the student's
records, then conditionally apply the course filter and the date-range
filters, each via a join with `Session`. -/
def studentQuery (db : DB) (studentId : Nat)
    (courseFilter dateFrom dateTo : Option Nat) : List AttendanceRecord :=
  let q0 := db.records.filter (fun r => r.student_id == studentId)
  let q1 :=
    match courseFilter with
    | some cid => q0.filter (sessionPasses db (fun s => s.course_id == cid))
    | none => q0
  let q2 :=
    match dateFrom with
    | some d => q1.filter (sessionPasses db (fun s => d ≤ s.session_date))
    | none => q1
  match dateTo with
  | some d => q2.filter (sessionPasses db (fun s => s.session_date ≤ d))
  | none => q2

/-- The `statistics` object of the student view. `attendance_rate` is the
exact rational value of `(present_count + late_count) / total_sessions * 100`
guarded by `if total_sessions > 0 else 0`. -/
structure StudentStats where
  total_sessions : Nat
  present : Nat
  late : Nat
  absent : Nat
  excused : Nat
  attendance_rate : Rat
deriving Repr

/-- `get_student_attendance` from `routes/attendance.py`: per-status counts
and the rate over the records matching the filters. -/
def get_student_attendance (db : DB) (studentId : Nat)
    (courseFilter dateFrom dateTo : Option Nat) : StudentStats :=
  let attendance_records := studentQuery db studentId courseFilter dateFrom dateTo
  let total_sessions := attendance_records.length
  let present_count :=
    (attendance_records.filter (fun r => r.status == AttendanceStatus.PRESENT)).length
  let late_count :=
    (attendance_records.filter (fun r => r.status == AttendanceStatus.LATE)).length
  let absent_count :=
    (attendance_records.filter (fun r => r.status == AttendanceStatus.ABSENT)).length
  let excused_count :=
    (attendance_records.filter (fun r => r.status == AttendanceStatus.EXCUSED)).length
  { total_sessions := total_sessions
    present := present_count
    late := late_count
    absent := absent_count
    excused := excused_count
    attendance_rate :=
      if total_sessions > 0 then
        (((present_count : Rat) + (late_count : Rat)) / (total_sessions : Rat)) * 100
      else 0 }

/-- One cell of the course matrix: the record for (student, session) or the
synthesized `{'status': 'ABSENT', 'marked_at': None}`. -/
structure MatrixCell where
  session_id : Nat
  status : AttendanceStatus
  marked_at : Option Nat
deriving DecidableEq, Repr

/-- One row of `attendance_matrix` with its per-student `statistics`. -/
structure StudentRow where
  student_id : Nat
  cells : List MatrixCell
  total_sessions : Nat
  present : Nat
  late : Nat
  absent : Nat
  attendance_rate : Rat
deriving DecidableEq, Repr

/-- Cell lookup of `get_course_attendance`: the first course record matching
this student and session, else a synthesized ABSENT cell. -/
def matrixCell (records : List AttendanceRecord) (studentId : Nat) (s : Session) :
    MatrixCell :=
  match records.find? (fun r => r.student_id == studentId && r.session_id == s.id) with
  | some r => { session_id := s.id, status := r.status, marked_at := some r.marked_at }
  | none => { session_id := s.id, status := AttendanceStatus.ABSENT, marked_at := none }

/-- One iteration of the `for student in enrolled_students` loop of
`get_course_attendance`: build the cells over all course sessions and the
per-student statistics, whose rate divides by `len(sessions)` (the full
course session count), guarded by `if total_sessions > 0 else 0`. -/
def studentRow (sessions : List Session) (records : List AttendanceRecord)
    (studentId : Nat) : StudentRow :=
  let cells := sessions.map (matrixCell records studentId)
  let present_count := (cells.filter (fun cell => isPresentOrLate cell.status)).length
  let total_sessions := sessions.length
  { student_id := studentId
    cells := cells
    total_sessions := total_sessions
    present := (cells.filter (fun cell => cell.status == AttendanceStatus.PRESENT)).length
    late := (cells.filter (fun cell => cell.status == AttendanceStatus.LATE)).length
    absent := (cells.filter (fun cell => cell.status == AttendanceStatus.ABSENT)).length
    attendance_rate :=
      if total_sessions > 0 then ((present_count : Rat) / (total_sessions : Rat)) * 100
      else 0 }

/-- The course matrix view response of `get_course_attendance`. -/
structure CourseView where
  attendance_matrix : List StudentRow
  total_students : Nat
  total_sessions : Nat
  total_records : Nat
deriving Repr

/-- `get_course_attendance` from `routes/attendance.py`: the cross product of
enrolled students × course sessions, plus the summary counts. -/
def get_course_attendance (db : DB) (courseId : Nat) : CourseView :=
  let sessions := db.sessions.filter (fun s => s.course_id == courseId)
  let enrolled_students := enrolledStudents db courseId
  let attendance_records :=
    db.records.filter (sessionPasses db (fun s => s.course_id == courseId))
  { attendance_matrix := enrolled_students.map (studentRow sessions attendance_records)
    total_students := enrolled_students.length
    total_sessions := sessions.length
    total_records := attendance_records.length }

/-- Outcome of the lecturer marking handler (`/mark`). -/
inductive MarkOutcome
  | SessionNotFound
  | CourseMissing
  | NotOwner
  | StudentNotFound
  | NotEnrolled
  | Updated
  | Created
deriving DecidableEq, Repr

/-- `mark_attendance` from `routes/attendance.py`: the lecturer authoritative
marking path.  Guards in source order: session exists, lecturer owns the
session's course, student exists, active enrollment.  Then: if a record for
(session, student) already exists, mutate that row in place (status,
marked_by, marked_at, notes); otherwise insert a new row.  There is no
`attendance_open` check anywhere on this path. -/
def mark_attendance (db : DB) (lecturerId sessionId studentId : Nat)
    (status : AttendanceStatus) (notes : Option String) (nowStamp : Nat) :
    DB × MarkOutcome :=
  match findSession db sessionId with
  | none => (db, MarkOutcome.SessionNotFound)
  | some s =>
    match findCourse db s.course_id with
    | none => (db, MarkOutcome.CourseMissing)
    | some c =>
      if c.lecturer_id != lecturerId then (db, MarkOutcome.NotOwner)
      else if !(db.students.contains studentId) then (db, MarkOutcome.StudentNotFound)
      else
        match activeEnrollment db studentId s.course_id with
        | none => (db, MarkOutcome.NotEnrolled)
        | some _ =>
          match findRecord db sessionId studentId with
          | some _ =>
            ({ db with
                records :=
                  updateFirst
                    (fun r => r.session_id == sessionId && r.student_id == studentId)
                    (fun r =>
                      { r with
                          status := status
                          marked_by := some lecturerId
                          marked_at := nowStamp
                          notes := notes })
                    db.records },
              MarkOutcome.Updated)
          | none =>
            ({ db with
                records := db.records ++
                  [{ id := freshRecordId db
                     session_id := sessionId
                     student_id := studentId
                     status := status
                     marked_at := nowStamp
                     marked_by := some lecturerId
                     notes := notes }] },
              MarkOutcome.Created)

/-- Outcome of the enrollment handler (`/<course_id>/enroll`). -/
inductive EnrollOutcome
  | CourseNotFound
  | CourseNotActive
  | AlreadyEnrolled
  | Reactivated
  | Created
deriving DecidableEq, Repr

/-- `enroll_student` from `routes/courses.py`: course must exist and be
ACTIVE; an existing active enrollment is a conflict (no write), an existing
inactive enrollment is flipped back to active in place, and only when no
enrollment row exists at all is a new row inserted. -/
def enroll_student (db : DB) (studentId courseId : Nat) (nowStamp : Nat) :
    DB × EnrollOutcome :=
  match findCourse db courseId with
  | none => (db, EnrollOutcome.CourseNotFound)
  | some c =>
    if c.status != CourseStatus.ACTIVE then (db, EnrollOutcome.CourseNotActive)
    else
      match anyEnrollment db studentId courseId with
      | some e =>
        if e.is_active then (db, EnrollOutcome.AlreadyEnrolled)
        else
          ({ db with
              enrollments :=
                updateFirst
                  (fun e2 => e2.student_id == studentId && e2.course_id == courseId)
                  (fun e2 => { e2 with is_active := true })
                  db.enrollments },
            EnrollOutcome.Reactivated)
      | none =>
        ({ db with
            enrollments := db.enrollments ++
              [{ id := freshEnrollmentId db
                 student_id := studentId
                 course_id := courseId
                 enrolled_at := nowStamp
                 is_active := true }] },
          EnrollOutcome.Created)

/-! ### Concrete sample data (used by the closed witness theorems) -/

/-- A sample course owned by lecturer 7. -/
def sampleCourse : Course := { id := 1, lecturer_id := 7, status := CourseStatus.ACTIVE }

/-- A sample session with attendance open, starting at minute 540 (09:00). -/
def sessA : Session :=
  { id := 1, course_id := 1, session_date := 20, start_time := 540, end_time := 600,
    attendance_open := true }

/-- A sample session with attendance closed. -/
def sessB : Session :=
  { id := 2, course_id := 1, session_date := 21, start_time := 540, end_time := 600,
    attendance_open := false }

/-- Active enrollment of student 3 in course 1. -/
def enr3 : Enrollment :=
  { id := 1, student_id := 3, course_id := 1, enrolled_at := 0, is_active := true }

/-- Active enrollment of student 4 in course 1. -/
def enr4 : Enrollment :=
  { id := 2, student_id := 4, course_id := 1, enrolled_at := 0, is_active := true }

/-- Student 3 checked in PRESENT on session 1. -/
def recA : AttendanceRecord :=
  { id := 1, session_id := 1, student_id := 3, status := AttendanceStatus.PRESENT,
    marked_at := 100, marked_by := some 3, notes := none }

/-- A small database: one course, two sessions, two enrolled students, one
existing attendance record. -/
def sampleDB : DB :=
  { courses := [sampleCourse]
    sessions := [sessA, sessB]
    students := [3, 4]
    enrollments := [enr3, enr4]
    records := [recA] }

/-- Soft-removed (inactive) enrollment of student 3 in course 1. -/
def enr3Inactive : Enrollment :=
  { id := 1, student_id := 3, course_id := 1, enrolled_at := 0, is_active := false }

/-- Like `sampleDB`, but student 3's enrollment has been soft-removed. -/
def sampleDBInactive : DB :=
  { courses := [sampleCourse]
    sessions := [sessA, sessB]
    students := [3, 4]
    enrollments := [enr3Inactive, enr4]
    records := [recA] }

/-! ### Claims -/

/-- C1: on a successful student self-check-in (open session, active
enrollment, no prior record) exactly one record is appended, and its stored
status is LATE when the current time-of-day is strictly after the session's
start time and PRESENT when it is before or exactly at the start time; the
comparison involves only the two time-of-day values, no date. -/
theorem checkin_time_classification
    (db : DB) (userId studentId sessionId nowTime nowStamp : Nat) (s : Session)
    (hs : findSession db sessionId = some s)
    (hopen : s.attendance_open = true)
    (henr : (activeEnrollment db studentId s.course_id).isSome = true)
    (hdup : findRecord db sessionId studentId = none) :
    ∃ r : AttendanceRecord,
      (checkin db userId studentId sessionId nowTime nowStamp).1.records =
        db.records ++ [r] ∧
      (checkin db userId studentId sessionId nowTime nowStamp).2 =
        CheckinOutcome.CheckedIn r.status ∧
      (s.start_time < nowTime → r.status = AttendanceStatus.LATE) ∧
      (nowTime ≤ s.start_time → r.status = AttendanceStatus.PRESENT) := by
  obtain ⟨e, he⟩ := Option.isSome_iff_exists.mp henr
  refine ⟨{ id := freshRecordId db, session_id := sessionId, student_id := studentId,
            status :=
              if s.start_time < nowTime then AttendanceStatus.LATE
              else AttendanceStatus.PRESENT,
            marked_at := nowStamp, marked_by := some userId, notes := none },
          ?_, ?_, ?_, ?_⟩
  · simp [checkin, hs, hopen, he, hdup]
  · simp [checkin, hs, hopen, he, hdup]
  · intro h; simp [h]
  · intro h; simp [Nat.not_lt.mpr h]

/-- Witness for C1: student 4 checks in on the open session 1 at minute 600,
after the 09:00 start. -/
theorem checkin_time_classification_witness :
    ∃ r : AttendanceRecord,
      (checkin sampleDB 9 4 1 600 700).1.records = sampleDB.records ++ [r] ∧
      (checkin sampleDB 9 4 1 600 700).2 = CheckinOutcome.CheckedIn r.status ∧
      (sessA.start_time < 600 → r.status = AttendanceStatus.LATE) ∧
      (600 ≤ sessA.start_time → r.status = AttendanceStatus.PRESENT) :=
  checkin_time_classification sampleDB 9 4 1 600 700 sessA
    (by decide) (by decide) (by decide) (by decide)

/-- C2: self-check-in fails with SessionClosed whenever `attendance_open` is
false (regardless of enrollment, duplicates or time), with NotEnrolled when
the session is open but no active enrollment exists, and with
DuplicateCheckIn when open and enrolled but a record for (session, student)
already exists — the guards run in that order, and each failure leaves the
database unchanged (no record inserted). -/
theorem checkin_failure_contract
    (db : DB) (userId studentId sessionId nowTime nowStamp : Nat) (s : Session)
    (hs : findSession db sessionId = some s) :
    (s.attendance_open = false →
      checkin db userId studentId sessionId nowTime nowStamp =
        (db, CheckinOutcome.SessionClosed)) ∧
    (s.attendance_open = true →
      activeEnrollment db studentId s.course_id = none →
      checkin db userId studentId sessionId nowTime nowStamp =
        (db, CheckinOutcome.NotEnrolled)) ∧
    (s.attendance_open = true →
      (activeEnrollment db studentId s.course_id).isSome = true →
      (findRecord db sessionId studentId).isSome = true →
      checkin db userId studentId sessionId nowTime nowStamp =
        (db, CheckinOutcome.DuplicateCheckIn)) := by
  refine ⟨?_, ?_, ?_⟩
  · intro h
    simp [checkin, hs, h]
  · intro h1 h2
    simp [checkin, hs, h1, h2]
  · intro h1 h2 h3
    obtain ⟨e, he⟩ := Option.isSome_iff_exists.mp h2
    obtain ⟨r0, hr⟩ := Option.isSome_iff_exists.mp h3
    simp [checkin, hs, h1, he, hr]

/-- Witness for C2: enrolled student 3 tries to check in on session 2, whose
`attendance_open` flag is false; the database is returned unchanged. -/
theorem checkin_failure_contract_witness :
    checkin sampleDB 9 3 2 600 700 = (sampleDB, CheckinOutcome.SessionClosed) :=
  (checkin_failure_contract sampleDB 9 3 2 600 700 sessB (by decide)).1 (by decide)

/-- C3: every row of the course matrix view reports an attendance_rate whose
denominator is the full count of the course's sessions (including sessions
with no record): the rate is the number of PRESENT-or-LATE cells divided by
the total course session count, times 100, and 0 when the course has no
sessions. -/
theorem course_matrix_rate_denominator
    (db : DB) (courseId : Nat) (row : StudentRow)
    (hrow : row ∈ (get_course_attendance db courseId).attendance_matrix) :
    row.attendance_rate =
      if 0 < (db.sessions.filter (fun s => s.course_id == courseId)).length then
        ((row.cells.filter (fun cell => isPresentOrLate cell.status)).length : Rat) /
          ((db.sessions.filter (fun s => s.course_id == courseId)).length : Rat) * 100
      else 0 := by
  simp only [get_course_attendance, List.mem_map] at hrow
  obtain ⟨st, hst, rfl⟩ := hrow
  simp [studentRow]

/-- Witness for C3: student 3's row in course 1's matrix has one PRESENT cell
over the course's two sessions. -/
theorem course_matrix_rate_denominator_witness :
    (studentRow (sampleDB.sessions.filter (fun s => s.course_id == 1))
        (sampleDB.records.filter (sessionPasses sampleDB (fun s => s.course_id == 1)))
        3).attendance_rate =
      if 0 < (sampleDB.sessions.filter (fun s => s.course_id == 1)).length then
        (((studentRow (sampleDB.sessions.filter (fun s => s.course_id == 1))
              (sampleDB.records.filter (sessionPasses sampleDB (fun s => s.course_id == 1)))
              3).cells.filter (fun cell => isPresentOrLate cell.status)).length : Rat) /
          ((sampleDB.sessions.filter (fun s => s.course_id == 1)).length : Rat) * 100
      else 0 :=
  course_matrix_rate_denominator sampleDB 1
    (studentRow (sampleDB.sessions.filter (fun s => s.course_id == 1))
      (sampleDB.records.filter (sessionPasses sampleDB (fun s => s.course_id == 1))) 3)
    (by
      simp only [get_course_attendance]
      exact List.mem_map_of_mem _ (by decide))

/-- C4: in the student view, for every filter combination the attendance_rate
is (PRESENT count + LATE count) / (number of matching records) × 100 — the
denominator is the matching-record count, not the full session count — and
with zero matching records the rate is exactly 0 with no division performed. -/
theorem student_view_rate
    (db : DB) (studentId : Nat) (courseFilter dateFrom dateTo : Option Nat) :
    ((studentQuery db studentId courseFilter dateFrom dateTo).length = 0 →
      (get_student_attendance db studentId courseFilter dateFrom dateTo).attendance_rate
        = 0) ∧
    (0 < (studentQuery db studentId courseFilter dateFrom dateTo).length →
      (get_student_attendance db studentId courseFilter dateFrom dateTo).attendance_rate =
        ((((studentQuery db studentId courseFilter dateFrom dateTo).filter
              (fun r => r.status == AttendanceStatus.PRESENT)).length : Rat) +
          (((studentQuery db studentId courseFilter dateFrom dateTo).filter
              (fun r => r.status == AttendanceStatus.LATE)).length : Rat)) /
          ((studentQuery db studentId courseFilter dateFrom dateTo).length : Rat)
          * 100) := by
  constructor
  · intro h
    simp [get_student_attendance, h]
  · intro h
    simp [get_student_attendance, h]

/-- Witness for C4: student 3 with no filters has one matching PRESENT
record, so the rate is 100. -/
theorem student_view_rate_witness :
    (get_student_attendance sampleDB 3 none none none).attendance_rate =
      ((((studentQuery sampleDB 3 none none none).filter
            (fun r => r.status == AttendanceStatus.PRESENT)).length : Rat) +
        (((studentQuery sampleDB 3 none none none).filter
            (fun r => r.status == AttendanceStatus.LATE)).length : Rat)) /
        ((studentQuery sampleDB 3 none none none).length : Rat) * 100 :=
  (student_view_rate sampleDB 3 none none none).2 (by decide)

/-- C5: the lecturer session view reports total_enrolled as the number of
students with an active enrollment in the session's course, total_present as
the number of the session's records with status PRESENT or LATE, and
total_absent as total_enrolled minus the number of records found for the
session; every enrolled student without a record appears in the list with a
synthesized ABSENT entry (no marked_at). -/
theorem session_view_counts (db : DB) (s : Session) :
    (get_session_attendance db s).total_enrolled =
      (db.students.filter (fun st =>
        db.enrollments.any
          (fun e => e.student_id == st && e.course_id == s.course_id && e.is_active))).length ∧
    (get_session_attendance db s).total_present =
      ((db.records.filter (fun r => r.session_id == s.id)).filter
          (fun r => isPresentOrLate r.status)).length ∧
    (get_session_attendance db s).total_absent =
      (((get_session_attendance db s).total_enrolled : Int) -
        ((db.records.filter (fun r => r.session_id == s.id)).length : Int)) ∧
    (∀ st, st ∈ enrolledStudents db s.course_id →
      (db.records.filter (fun r => r.session_id == s.id)).find?
          (fun r => r.student_id == st) = none →
      ({ student_id := st, status := AttendanceStatus.ABSENT, marked_at := none } :
          SessionCell) ∈ (get_session_attendance db s).attendance_list) := by
  refine ⟨rfl, rfl, rfl, ?_⟩
  intro st hmem hnone
  simp only [get_session_attendance]
  refine List.mem_map.mpr ⟨st, hmem, ?_⟩
  simp [hnone]

/-- Witness for C5: enrolled student 4 has no record on session 1 and shows
up as a synthesized ABSENT entry. -/
theorem session_view_counts_witness :
    ({ student_id := 4, status := AttendanceStatus.ABSENT, marked_at := none } :
        SessionCell) ∈ (get_session_attendance sampleDB sessA).attendance_list :=
  (session_view_counts sampleDB sessA).2.2.2 4 (by decide) (by decide)

/-- Splitting a list by a Boolean predicate partitions its length. -/
theorem length_filter_split {α : Type} (p : α → Bool) (l : List α) :
    (l.filter p).length + (l.filter (fun x => !(p x))).length = l.length := by
  induction l with
  | nil => rfl
  | cons a t ih =>
    cases h : p a <;> simp [List.filter_cons, h] <;> omega

/-- A status is not PRESENT-or-LATE exactly when it is ABSENT or EXCUSED. -/
theorem not_isPresentOrLate (st : AttendanceStatus) :
    (!(isPresentOrLate st)) =
      (st == AttendanceStatus.ABSENT || st == AttendanceStatus.EXCUSED) := by
  cases st <;> rfl

/-- C6: the course matrix for course C with enrolled students S and session
list L has |S| rows of |L| cells each — |S| × |L| cells in total — and every
cell is either the explicit attendance record for that (student, session)
pair or a synthesized entry with status ABSENT and no marked_at. -/
theorem course_matrix_shape (db : DB) (courseId : Nat) :
    (get_course_attendance db courseId).attendance_matrix.length =
      (enrolledStudents db courseId).length ∧
    ((get_course_attendance db courseId).attendance_matrix.map
        (fun row => row.cells.length)).sum =
      (enrolledStudents db courseId).length *
        (db.sessions.filter (fun s => s.course_id == courseId)).length ∧
    (∀ row, row ∈ (get_course_attendance db courseId).attendance_matrix →
      row.cells.length = (db.sessions.filter (fun s => s.course_id == courseId)).length ∧
      ∀ cell, cell ∈ row.cells →
        (∃ r, r ∈ db.records ∧ r.student_id = row.student_id ∧
            r.session_id = cell.session_id ∧
            cell.status = r.status ∧ cell.marked_at = some r.marked_at) ∨
        (cell.status = AttendanceStatus.ABSENT ∧ cell.marked_at = none)) := by
  refine ⟨by simp [get_course_attendance], ?_, ?_⟩
  · have h1 : (get_course_attendance db courseId).attendance_matrix.map
        (fun row => row.cells.length) =
        List.replicate (enrolledStudents db courseId).length
          (db.sessions.filter (fun s => s.course_id == courseId)).length := by
      refine List.eq_replicate_iff.mpr ⟨by simp [get_course_attendance], ?_⟩
      intro b hb
      simp only [get_course_attendance, List.map_map, List.mem_map,
        Function.comp] at hb
      obtain ⟨st, hst, rfl⟩ := hb
      simp [studentRow]
    rw [h1, List.sum_replicate, smul_eq_mul]
  · intro row hrow
    simp only [get_course_attendance, List.mem_map] at hrow
    obtain ⟨st, hst, rfl⟩ := hrow
    constructor
    · simp [studentRow]
    · intro cell hcell
      simp only [studentRow, List.mem_map] at hcell
      obtain ⟨sess, hsess, rfl⟩ := hcell
      rcases hfind : (db.records.filter
            (sessionPasses db (fun s => s.course_id == courseId))).find?
          (fun r => r.student_id == st && r.session_id == sess.id) with _ | r
      · right
        simp [matrixCell, hfind]
      · left
        have hpred := List.find?_some hfind
        have hmem0 := List.mem_of_find?_eq_some hfind
        have hmem1 : r ∈ db.records := (List.mem_filter.mp hmem0).1
        simp only [Bool.and_eq_true, beq_iff_eq] at hpred
        exact ⟨r, hmem1, by simp [studentRow, hpred.1], by simp [matrixCell, hfind, hpred.2],
          by simp [matrixCell, hfind], by simp [matrixCell, hfind]⟩

/-- Witness for C6: in the sample course matrix, student 3's cell for session
1 is the explicit PRESENT record. -/
theorem course_matrix_shape_witness :
    (∃ r, r ∈ sampleDB.records ∧
        r.student_id =
          (studentRow (sampleDB.sessions.filter (fun s => s.course_id == 1))
            (sampleDB.records.filter (sessionPasses sampleDB (fun s => s.course_id == 1)))
            3).student_id ∧
        r.session_id =
          (matrixCell
            (sampleDB.records.filter (sessionPasses sampleDB (fun s => s.course_id == 1)))
            3 sessA).session_id ∧
        (matrixCell
            (sampleDB.records.filter (sessionPasses sampleDB (fun s => s.course_id == 1)))
            3 sessA).status = r.status ∧
        (matrixCell
            (sampleDB.records.filter (sessionPasses sampleDB (fun s => s.course_id == 1)))
            3 sessA).marked_at = some r.marked_at) ∨
    ((matrixCell
        (sampleDB.records.filter (sessionPasses sampleDB (fun s => s.course_id == 1)))
        3 sessA).status = AttendanceStatus.ABSENT ∧
      (matrixCell
        (sampleDB.records.filter (sessionPasses sampleDB (fun s => s.course_id == 1)))
        3 sessA).marked_at = none) :=
  ((course_matrix_shape sampleDB 1).2.2
      (studentRow (sampleDB.sessions.filter (fun s => s.course_id == 1))
        (sampleDB.records.filter (sessionPasses sampleDB (fun s => s.course_id == 1))) 3)
      (by
        simp only [get_course_attendance]
        exact List.mem_map_of_mem _ (by decide))).2
    (matrixCell
      (sampleDB.records.filter (sessionPasses sampleDB (fun s => s.course_id == 1)))
      3 sessA)
    (by
      simp only [studentRow]
      exact List.mem_map_of_mem _ (by decide))

/-- C10: in the lecturer session view, a student with an explicit ABSENT or
EXCUSED record is counted in neither total_present nor total_absent, so
total_present + total_absent = total_enrolled − (number of explicit
ABSENT/EXCUSED records); hence the sum is at most total_enrolled, strictly
below it whenever such an explicit record exists for the session. -/
theorem session_view_accounting_gap (db : DB) (s : Session) :
    ((get_session_attendance db s).total_present : Int) +
        (get_session_attendance db s).total_absent =
      ((get_session_attendance db s).total_enrolled : Int) -
        (((db.records.filter (fun r => r.session_id == s.id)).filter
            (fun r => r.status == AttendanceStatus.ABSENT ||
              r.status == AttendanceStatus.EXCUSED)).length : Int) ∧
    ((get_session_attendance db s).total_present : Int) +
        (get_session_attendance db s).total_absent ≤
      ((get_session_attendance db s).total_enrolled : Int) ∧
    ((∃ r, r ∈ db.records ∧ r.session_id = s.id ∧
        (r.status = AttendanceStatus.ABSENT ∨ r.status = AttendanceStatus.EXCUSED)) →
      ((get_session_attendance db s).total_present : Int) +
          (get_session_attendance db s).total_absent <
        ((get_session_attendance db s).total_enrolled : Int)) := by
  have hcongr : (db.records.filter (fun r => r.session_id == s.id)).filter
      (fun r => !(isPresentOrLate r.status)) =
      (db.records.filter (fun r => r.session_id == s.id)).filter
        (fun r => r.status == AttendanceStatus.ABSENT ||
          r.status == AttendanceStatus.EXCUSED) := by
    apply List.filter_congr
    intro r _
    exact not_isPresentOrLate r.status
  have hAE : ((db.records.filter (fun r => r.session_id == s.id)).filter
        (fun r => isPresentOrLate r.status)).length +
      ((db.records.filter (fun r => r.session_id == s.id)).filter
        (fun r => r.status == AttendanceStatus.ABSENT ||
          r.status == AttendanceStatus.EXCUSED)).length =
      (db.records.filter (fun r => r.session_id == s.id)).length := by
    rw [← hcongr]
    exact length_filter_split _ _
  refine ⟨?_, ?_, ?_⟩
  · simp only [get_session_attendance]
    omega
  · simp only [get_session_attendance]
    omega
  · rintro ⟨r, hr, hsid, hstatus⟩
    have hmemAE : r ∈ (db.records.filter (fun r => r.session_id == s.id)).filter
        (fun r => r.status == AttendanceStatus.ABSENT ||
          r.status == AttendanceStatus.EXCUSED) := by
      refine List.mem_filter.mpr ⟨List.mem_filter.mpr ⟨hr, by simp [hsid]⟩, ?_⟩
      rcases hstatus with h | h <;> simp [h]
    have hpos : 0 < ((db.records.filter (fun r => r.session_id == s.id)).filter
        (fun r => r.status == AttendanceStatus.ABSENT ||
          r.status == AttendanceStatus.EXCUSED)).length :=
      List.length_pos.mpr (List.ne_nil_of_mem hmemAE)
    simp only [get_session_attendance]
    omega

/-- Witness for C10: give session 1 an explicit EXCUSED record for student 4;
the present/absent counts then sum to strictly less than the enrolled count. -/
theorem session_view_accounting_gap_witness :
    ((get_session_attendance
        { sampleDB with
            records := [recA,
              { id := 2, session_id := 1, student_id := 4,
                status := AttendanceStatus.EXCUSED, marked_at := 150,
                marked_by := some 7, notes := none }] } sessA).total_present : Int) +
        (get_session_attendance
          { sampleDB with
              records := [recA,
                { id := 2, session_id := 1, student_id := 4,
                  status := AttendanceStatus.EXCUSED, marked_at := 150,
                  marked_by := some 7, notes := none }] } sessA).total_absent <
      ((get_session_attendance
          { sampleDB with
              records := [recA,
                { id := 2, session_id := 1, student_id := 4,
                  status := AttendanceStatus.EXCUSED, marked_at := 150,
                  marked_by := some 7, notes := none }] } sessA).total_enrolled : Int) :=
  (session_view_accounting_gap
      { sampleDB with
          records := [recA,
            { id := 2, session_id := 1, student_id := 4,
              status := AttendanceStatus.EXCUSED, marked_at := 150,
              marked_by := some 7, notes := none }] } sessA).2.2
    ⟨{ id := 2, session_id := 1, student_id := 4, status := AttendanceStatus.EXCUSED,
        marked_at := 150, marked_by := some 7, notes := none },
      by decide, by decide, Or.inr (by decide)⟩

/-- `updateFirst` preserves the length of the list (no row is inserted or
deleted by an in-place update). -/
theorem updateFirst_length {α : Type} (p : α → Bool) (f : α → α) (l : List α) :
    (updateFirst p f l).length = l.length := by
  induction l with
  | nil => rfl
  | cons x xs ih =>
    cases h : p x <;> simp [updateFirst, h, ih]

/-- When `f` keeps the predicate `p` true, `find? p` after an in-place update
of the first `p`-match returns that match with `f` applied. -/
theorem updateFirst_find (p : α → Bool) (f : α → α) (l : List α)
    (hf : ∀ x, p x = true → p (f x) = true) :
    (updateFirst p f l).find? p = (l.find? p).map f := by
  induction l with
  | nil => rfl
  | cons x xs ih =>
    cases h : p x with
    | false =>
      rw [updateFirst, if_neg (by simp [h]), List.find?_cons_of_neg _ (by simp [h]),
        List.find?_cons_of_neg _ (by simp [h]), ih]
    | true =>
      rw [updateFirst, if_pos h, List.find?_cons_of_pos _ (hf x h),
        List.find?_cons_of_pos _ h, Option.map_some']

/-- When `f` does not change whether an element satisfies `q`, an in-place
update of the first `p`-match preserves the number of `q`-matches. -/
theorem updateFirst_filter_length {α : Type} (p q : α → Bool) (f : α → α)
    (l : List α) (hf : ∀ x, p x = true → q (f x) = q x) :
    ((updateFirst p f l).filter q).length = (l.filter q).length := by
  induction l with
  | nil => rfl
  | cons x xs ih =>
    cases h : p x with
    | false =>
      rw [updateFirst, if_neg (by simp [h])]
      cases hq : q x <;> simp [List.filter_cons, hq, ih]
    | true =>
      rw [updateFirst, if_pos h]
      cases hq : q x <;> simp [List.filter_cons, hq, hf x h]

/-- The record predicate used by `mark_attendance`'s lookup and update. -/
def pairPred (sessionId studentId : Nat) (r : AttendanceRecord) : Bool :=
  r.session_id == sessionId && r.student_id == studentId

/-- The in-place field update applied by `mark_attendance` to an existing
record. -/
def markUpdate (lecturerId : Nat) (status : AttendanceStatus)
    (notes : Option String) (nowStamp : Nat) (r : AttendanceRecord) :
    AttendanceRecord :=
  { r with
      status := status
      marked_by := some lecturerId
      marked_at := nowStamp
      notes := notes }

/-- `mark_attendance` on a pair that already has a record reduces to an
in-place `updateFirst` on the records table. -/
theorem mark_attendance_existing
    (db : DB) (lecturerId sessionId studentId : Nat) (status : AttendanceStatus)
    (notes : Option String) (nowStamp : Nat) (s : Session) (c : Course)
    (r0 : AttendanceRecord)
    (hs : findSession db sessionId = some s)
    (hc : findCourse db s.course_id = some c)
    (hown : c.lecturer_id = lecturerId)
    (hstu : studentId ∈ db.students)
    (henr : (activeEnrollment db studentId s.course_id).isSome = true)
    (hrec : findRecord db sessionId studentId = some r0) :
    mark_attendance db lecturerId sessionId studentId status notes nowStamp =
      ({ db with
          records := updateFirst (pairPred sessionId studentId)
            (markUpdate lecturerId status notes nowStamp) db.records },
        MarkOutcome.Updated) := by
  obtain ⟨e, he⟩ := Option.isSome_iff_exists.mp henr
  simp only [mark_attendance, hs, hc, hown, hstu, he, hrec]
  simp [pairPred, markUpdate, hstu]
  rfl

/-- C7: lecturer marking on a (session, student) pair that already has a
record is an update in place: the outcome is Updated, the table length is
unchanged, the record found for the pair afterwards is the old record with
status, marked_by, marked_at and notes overwritten (same id, so identity
persists and a prior self-check-in row is overwritten rather than appended),
the number of rows for the pair is unchanged, and marking a second time (same
status) again leaves a single updated record whose marked_at is refreshed to
the second timestamp. -/
theorem mark_update_in_place
    (db : DB) (lecturerId sessionId studentId : Nat) (status : AttendanceStatus)
    (notes : Option String) (nowStamp nowStamp2 : Nat) (s : Session) (c : Course)
    (r0 : AttendanceRecord)
    (hs : findSession db sessionId = some s)
    (hc : findCourse db s.course_id = some c)
    (hown : c.lecturer_id = lecturerId)
    (hstu : studentId ∈ db.students)
    (henr : (activeEnrollment db studentId s.course_id).isSome = true)
    (hrec : findRecord db sessionId studentId = some r0) :
    (mark_attendance db lecturerId sessionId studentId status notes nowStamp).2 =
      MarkOutcome.Updated ∧
    (mark_attendance db lecturerId sessionId studentId status notes
        nowStamp).1.records.length = db.records.length ∧
    findRecord (mark_attendance db lecturerId sessionId studentId status notes
        nowStamp).1 sessionId studentId =
      some (markUpdate lecturerId status notes nowStamp r0) ∧
    (markUpdate lecturerId status notes nowStamp r0).id = r0.id ∧
    ((mark_attendance db lecturerId sessionId studentId status notes
          nowStamp).1.records.filter (pairPred sessionId studentId)).length =
      (db.records.filter (pairPred sessionId studentId)).length ∧
    (mark_attendance
        (mark_attendance db lecturerId sessionId studentId status notes nowStamp).1
        lecturerId sessionId studentId status notes nowStamp2).2 =
      MarkOutcome.Updated ∧
    (mark_attendance
        (mark_attendance db lecturerId sessionId studentId status notes nowStamp).1
        lecturerId sessionId studentId status notes nowStamp2).1.records.length =
      db.records.length ∧
    findRecord (mark_attendance
        (mark_attendance db lecturerId sessionId studentId status notes nowStamp).1
        lecturerId sessionId studentId status notes nowStamp2).1 sessionId studentId =
      some (markUpdate lecturerId status notes nowStamp2 r0) := by
  have hkeep : ∀ r : AttendanceRecord, pairPred sessionId studentId r = true →
      pairPred sessionId studentId (markUpdate lecturerId status notes nowStamp r) =
        true := fun r h => h
  have hkeep2 : ∀ r : AttendanceRecord, pairPred sessionId studentId r = true →
      pairPred sessionId studentId (markUpdate lecturerId status notes nowStamp2 r) =
        true := fun r h => h
  have hmain := mark_attendance_existing db lecturerId sessionId studentId status
    notes nowStamp s c r0 hs hc hown hstu henr hrec
  have hrec0 : db.records.find? (pairPred sessionId studentId) = some r0 := hrec
  have hfind1 : findRecord (mark_attendance db lecturerId sessionId studentId status
      notes nowStamp).1 sessionId studentId =
      some (markUpdate lecturerId status notes nowStamp r0) := by
    rw [hmain]
    show (updateFirst (pairPred sessionId studentId)
        (markUpdate lecturerId status notes nowStamp) db.records).find?
        (pairPred sessionId studentId) =
      some (markUpdate lecturerId status notes nowStamp r0)
    rw [updateFirst_find _ _ _ hkeep, hrec0, Option.map_some']
  have hs1 : findSession (mark_attendance db lecturerId sessionId studentId status
      notes nowStamp).1 sessionId = some s := by
    rw [hmain]; exact hs
  have hc1 : findCourse (mark_attendance db lecturerId sessionId studentId status
      notes nowStamp).1 s.course_id = some c := by
    rw [hmain]; exact hc
  have hstu1 : studentId ∈ (mark_attendance db lecturerId sessionId studentId status
      notes nowStamp).1.students := by
    rw [hmain]; exact hstu
  have henr1 : (activeEnrollment (mark_attendance db lecturerId sessionId studentId
      status notes nowStamp).1 studentId s.course_id).isSome = true := by
    rw [hmain]; exact henr
  have hmain2 := mark_attendance_existing
    (mark_attendance db lecturerId sessionId studentId status notes nowStamp).1
    lecturerId sessionId studentId status notes nowStamp2 s c
    (markUpdate lecturerId status notes nowStamp r0) hs1 hc1 hown hstu1 henr1 hfind1
  refine ⟨by rw [hmain], ?_, hfind1, rfl, ?_, by rw [hmain2], ?_, ?_⟩
  · rw [hmain]
    exact updateFirst_length _ _ _
  · rw [hmain]
    exact updateFirst_filter_length _ _ _ _ (fun x _ => rfl)
  · rw [hmain2]
    show (updateFirst (pairPred sessionId studentId)
        (markUpdate lecturerId status notes nowStamp2)
        (mark_attendance db lecturerId sessionId studentId status notes
          nowStamp).1.records).length = db.records.length
    rw [updateFirst_length, hmain]
    exact updateFirst_length _ _ _
  · rw [hmain2]
    have hfind1a : ((mark_attendance db lecturerId sessionId studentId status notes
        nowStamp).1.records).find? (pairPred sessionId studentId) =
        some (markUpdate lecturerId status notes nowStamp r0) := hfind1
    show (updateFirst (pairPred sessionId studentId)
        (markUpdate lecturerId status notes nowStamp2)
        (mark_attendance db lecturerId sessionId studentId status notes
          nowStamp).1.records).find? (pairPred sessionId studentId) =
      some (markUpdate lecturerId status notes nowStamp2 r0)
    rw [updateFirst_find _ _ _ hkeep2, hfind1a, Option.map_some']
    rfl

/-- Witness for C7: lecturer 7 marks student 3 LATE on session 1, where the
self-check-in record `recA` already exists, then marks again at a later
timestamp. -/
theorem mark_update_in_place_witness :
    (mark_attendance sampleDB 7 1 3 AttendanceStatus.LATE none 200).2 =
      MarkOutcome.Updated ∧
    (mark_attendance sampleDB 7 1 3 AttendanceStatus.LATE none
        200).1.records.length = sampleDB.records.length ∧
    findRecord (mark_attendance sampleDB 7 1 3 AttendanceStatus.LATE none 200).1
        1 3 = some (markUpdate 7 AttendanceStatus.LATE none 200 recA) ∧
    (markUpdate 7 AttendanceStatus.LATE none 200 recA).id = recA.id ∧
    ((mark_attendance sampleDB 7 1 3 AttendanceStatus.LATE none
        200).1.records.filter (pairPred 1 3)).length =
      (sampleDB.records.filter (pairPred 1 3)).length ∧
    (mark_attendance (mark_attendance sampleDB 7 1 3 AttendanceStatus.LATE none
        200).1 7 1 3 AttendanceStatus.LATE none 300).2 = MarkOutcome.Updated ∧
    (mark_attendance (mark_attendance sampleDB 7 1 3 AttendanceStatus.LATE none
        200).1 7 1 3 AttendanceStatus.LATE none 300).1.records.length =
      sampleDB.records.length ∧
    findRecord (mark_attendance (mark_attendance sampleDB 7 1 3
        AttendanceStatus.LATE none 200).1 7 1 3 AttendanceStatus.LATE none 300).1
        1 3 = some (markUpdate 7 AttendanceStatus.LATE none 300 recA) :=
  mark_update_in_place sampleDB 7 1 3 AttendanceStatus.LATE none 200 300
    sessA sampleCourse recA (by decide) (by decide) (by decide) (by decide)
    (by decide) (by decide)

/-- C8: enrolling when an active enrollment for the pair already exists fails
with a conflict and leaves the database unchanged; enrolling when an inactive
(soft-removed) enrollment exists reactivates that same row (same id, no new
row); only when no enrollment row exists at all is a new row created. -/
theorem enroll_uniqueness_reactivation
    (db : DB) (studentId courseId nowStamp : Nat) (c : Course)
    (hc : findCourse db courseId = some c)
    (hactive : c.status = CourseStatus.ACTIVE) :
    (∀ e, anyEnrollment db studentId courseId = some e → e.is_active = true →
      enroll_student db studentId courseId nowStamp =
        (db, EnrollOutcome.AlreadyEnrolled)) ∧
    (∀ e, anyEnrollment db studentId courseId = some e → e.is_active = false →
      (enroll_student db studentId courseId nowStamp).2 = EnrollOutcome.Reactivated ∧
      (enroll_student db studentId courseId nowStamp).1.enrollments.length =
        db.enrollments.length ∧
      anyEnrollment (enroll_student db studentId courseId nowStamp).1 studentId
          courseId = some { e with is_active := true }) ∧
    (anyEnrollment db studentId courseId = none →
      (enroll_student db studentId courseId nowStamp).2 = EnrollOutcome.Created ∧
      (enroll_student db studentId courseId nowStamp).1.enrollments.length =
        db.enrollments.length + 1) := by
  refine ⟨?_, ?_, ?_⟩
  · intro e he hact
    simp [enroll_student, hc, hactive, he, hact]
  · intro e he hact
    have hmain : enroll_student db studentId courseId nowStamp =
        ({ db with
            enrollments := updateFirst
              (fun e2 => e2.student_id == studentId && e2.course_id == courseId)
              (fun e2 => { e2 with is_active := true }) db.enrollments },
          EnrollOutcome.Reactivated) := by
      simp [enroll_student, hc, hactive, he, hact]
    have hkeep : ∀ e2 : Enrollment,
        (e2.student_id == studentId && e2.course_id == courseId) = true →
        (({ e2 with is_active := true } : Enrollment).student_id == studentId &&
          ({ e2 with is_active := true } : Enrollment).course_id == courseId) =
          true := fun e2 h => h
    refine ⟨by rw [hmain], ?_, ?_⟩
    · rw [hmain]
      exact updateFirst_length _ _ _
    · rw [hmain]
      show (updateFirst
          (fun e2 => e2.student_id == studentId && e2.course_id == courseId)
          (fun e2 => { e2 with is_active := true }) db.enrollments).find?
          (fun e2 => e2.student_id == studentId && e2.course_id == courseId) =
        some { e with is_active := true }
      rw [updateFirst_find _ _ _ hkeep]
      have he0 : db.enrollments.find?
          (fun e2 => e2.student_id == studentId && e2.course_id == courseId) =
          some e := he
      rw [he0, Option.map_some']
  · intro hnone
    constructor
    · simp [enroll_student, hc, hactive, hnone]
    · simp [enroll_student, hc, hactive, hnone]

/-- Witness for C8: student 3 re-enrolls in course 1 after a soft removal;
the inactive row is reactivated in place. -/
theorem enroll_uniqueness_reactivation_witness :
    (enroll_student sampleDBInactive 3 1 5).2 = EnrollOutcome.Reactivated ∧
    (enroll_student sampleDBInactive 3 1 5).1.enrollments.length =
      sampleDBInactive.enrollments.length ∧
    anyEnrollment (enroll_student sampleDBInactive 3 1 5).1 3 1 =
      some { enr3Inactive with is_active := true } :=
  (enroll_uniqueness_reactivation sampleDBInactive 3 1 5 sampleCourse
      (by decide) (by decide)).2.1 enr3Inactive (by decide) (by decide)

/-- C9: lecturer marking never consults the session's attendance_open gate:
for a session the lecturer owns and a student with an active enrollment, the
mark succeeds (updating or creating the record) even when attendance_open is
false — the gate constrains only the student self-check-in path. -/
theorem mark_ignores_attendance_open
    (db : DB) (lecturerId sessionId studentId : Nat) (status : AttendanceStatus)
    (notes : Option String) (nowStamp : Nat) (s : Session) (c : Course)
    (hs : findSession db sessionId = some s)
    (_hclosed : s.attendance_open = false)
    (hc : findCourse db s.course_id = some c)
    (hown : c.lecturer_id = lecturerId)
    (hstu : studentId ∈ db.students)
    (henr : (activeEnrollment db studentId s.course_id).isSome = true) :
    (mark_attendance db lecturerId sessionId studentId status notes nowStamp).2 =
      MarkOutcome.Updated ∨
    (mark_attendance db lecturerId sessionId studentId status notes nowStamp).2 =
      MarkOutcome.Created := by
  obtain ⟨e, he⟩ := Option.isSome_iff_exists.mp henr
  rcases hr : findRecord db sessionId studentId with _ | r0
  · right
    simp [mark_attendance, hs, hc, hown, hstu, he, hr]
  · left
    simp [mark_attendance, hs, hc, hown, hstu, he, hr]

/-- Witness for C9: lecturer 7 marks student 3 EXCUSED on session 2 even
though that session's attendance_open flag is false. -/
theorem mark_ignores_attendance_open_witness :
    (mark_attendance sampleDB 7 2 3 AttendanceStatus.EXCUSED none 300).2 =
      MarkOutcome.Updated ∨
    (mark_attendance sampleDB 7 2 3 AttendanceStatus.EXCUSED none 300).2 =
      MarkOutcome.Created :=
  mark_ignores_attendance_open sampleDB 7 2 3 AttendanceStatus.EXCUSED none 300
    sessB sampleCourse (by decide) (by decide) (by decide) (by decide) (by decide)
    (by decide)

end AttendEase
